import Mathlib

/-!
Shallow embedding of the `sox.transform.Transformer` effect-chain builder
(`src/sox/transform.py`) and verification of its specification.

Python numeric arguments are modelled by `PyNum` (an int or a float, the
float's value modelled as the rational it displays as); Python's string
rendering `"{}".format(x)` is modelled by `PyNum.pyStr`.  Each effect
method becomes a function from a `Transformer` record and its arguments
to the record after the call together with the error raised, if any
(`ValueError`/`TypeError` validation rejections are the spec's
`InvalidParameter`; `SoxError` from `build` is `ExecutionFailure`).
Statements that in the source mutate `self` before a later check can
raise are translated at the same granularity, so partial mutation on
failure is observable in the model exactly where it is in the source.
The external engine invoked by `build` is passed in as a function
argument, mirroring its role as an external collaborator.
-/

attribute [local semireducible] Rat.sub Rat.mul Rat.add

/-- Decimal digits of the fraction n/d (with n < d), most significant first;
`fuel` bounds the number of digits produced. -/
def fracDigits : Nat → Nat → Nat → String
  | 0, _, _ => ""
  | _ + 1, 0, _ => ""
  | fuel + 1, n, d =>
    let n10 := n * 10
    toString (n10 / d) ++ fracDigits fuel (n10 % d) d

/-- Python's rendering of a float whose value is the rational `q`
(integer part, a dot, then the decimal fraction digits, `.0` when the
value is integral), as produced by repr / str / format. -/
def pyFloatRepr (q : Rat) : String :=
  let sign := if q < 0 then "-" else ""
  let n := q.num.natAbs
  let d := q.den
  let ds := fracDigits 40 (n % d) d
  sign ++ toString (n / d) ++ "." ++ (if ds = "" then "0" else ds)

/-- A Python numeric value: an int, or a float (the float identified with
the rational number it displays as). -/
inductive PyNum where
  | int (n : Int)
  | float (q : Rat)
deriving DecidableEq

/-- The rational value of a Python number, used for all numeric
comparisons (Python compares ints and floats by value). -/
def PyNum.toRat : PyNum → Rat
  | .int n => (n : Rat)
  | .float q => q

/-- Python's `"{}".format(x)` / `str(x)` for a number. -/
def PyNum.pyStr : PyNum → String
  | .int n => toString n
  | .float q => pyFloatRepr q

/-- Python subtraction on numbers: int - int is an int, any other
combination is a float. -/
def PyNum.sub : PyNum → PyNum → PyNum
  | .int a, .int b => .int (a - b)
  | a, b => .float (a.toRat - b.toRat)

/-- Error kinds of the builder: `invalidParameter` models the
`ValueError`/`TypeError` validation rejections, `executionFailure` models
`SoxError` raised by `build`. -/
inductive SoxErr where
  | invalidParameter
  | executionFailure
deriving DecidableEq

/-- State of a `sox.transform.Transformer` instance: input and output
paths plus the five accumulated token lists. -/
structure Transformer where
  input_filepath : String
  output_filepath : String
  input_format : List String
  output_format : List String
  effects : List String
  effects_log : List String
  globals : List String
deriving DecidableEq

/-- `VERBOSITY_VALS` from the source module. -/
def VERBOSITY_VALS : List Int := [0, 1, 2, 3, 4]

/-- `Transformer.set_globals`: validates `verbosity`, then rebuilds the
global argument list from scratch and replaces `self.globals` with it.
The boolean `isinstance` checks of the source hold by typing here. -/
def Transformer.set_globals (t : Transformer) (dither guard multithread replay_gain : Bool)
    (verbosity : Int) : Transformer × Option SoxErr :=
  if ¬ verbosity ∈ VERBOSITY_VALS then (t, some .invalidParameter)
  else
    let global_args : List String := []
    let global_args := if dither = false then global_args ++ ["-D"] else global_args
    let global_args := if guard then global_args ++ ["-G"] else global_args
    let global_args := if multithread then global_args ++ ["--multi-threaded"] else global_args
    let global_args :=
      if replay_gain then global_args ++ ["--replay-gain", "track"] else global_args
    let global_args := global_args ++ ["-V" ++ toString verbosity]
    ({ t with globals := global_args }, none)

/-- `Transformer.__init__`: path validation is delegated to the external
file-checking collaborator; the token lists start empty and
`set_globals()` is called with its defaults. -/
def Transformer.create (input_filepath output_filepath : String) : Transformer :=
  let t : Transformer := ⟨input_filepath, output_filepath, [], [], [], [], []⟩
  (t.set_globals false false false false 2).1

/-- `Transformer.build`: assembles the argument list by successive
extends/appends and hands it to the external engine collaborator
(the `engine` argument, modelling `core.sox`); raises `SoxError`
(`executionFailure`) exactly when the engine reports `False`.  The
builder state is not touched. -/
def Transformer.build (t : Transformer) (engine : List String → Bool) : Except SoxErr Bool :=
  let args : List String := []
  let args := args ++ t.globals
  let args := args ++ t.input_format
  let args := args ++ [t.input_filepath]
  let args := args ++ t.output_format
  let args := args ++ [t.output_filepath]
  let args := args ++ t.effects
  let status := engine args
  if status = false then .error .executionFailure else .ok true

/-- Ordering of transfer-function points by x-value, the sort key
`lambda tf_points: tf_points[0]` used by `compand`. -/
def tfLe (p q : PyNum × PyNum) : Prop := p.1.toRat ≤ q.1.toRat

instance : DecidableRel tfLe := fun p q => inferInstanceAs (Decidable (p.1.toRat ≤ q.1.toRat))

instance : IsTotal (PyNum × PyNum) tfLe := ⟨fun a b => le_total a.1.toRat b.1.toRat⟩

instance : IsTrans (PyNum × PyNum) tfLe := ⟨fun _ _ _ hab hbc => le_trans hab hbc⟩

/-- `Transformer.compand`: validates attack/decay times, the soft-knee
and the transfer-function point list (the structural list/tuple/number
`isinstance` checks hold by typing; the duplicate-x check compares the
list length with the size of the set of x-values, i.e. the number of
numerically distinct x-values); then sorts the points by x, flattens
them, and appends the three-token encoding and the log entry. -/
def Transformer.compand (t : Transformer) (attack_time decay_time : PyNum)
    (soft_knee_db : Option PyNum) (tf_points : List (PyNum × PyNum)) :
    Transformer × Option SoxErr :=
  if attack_time.toRat ≤ 0 then (t, some .invalidParameter)
  else if decay_time.toRat ≤ 0 then (t, some .invalidParameter)
  else if tf_points.length = 0 then (t, some .invalidParameter)
  else if tf_points.any (fun p => decide (0 < p.1.toRat) || decide (0 < p.2.toRat)) then
    (t, some .invalidParameter)
  else if (tf_points.map (fun p => p.1.toRat)).dedup.length < tf_points.length then
    (t, some .invalidParameter)
  else
    let tf_sorted := List.insertionSort tfLe tf_points
    let transfer_list := (tf_sorted.map (fun p => [p.1.pyStr, p.2.pyStr])).flatten
    let joined := String.intercalate "," transfer_list
    let effect_args := ["compand", attack_time.pyStr ++ "," ++ decay_time.pyStr]
    let effect_args := effect_args ++
      [match soft_knee_db with
       | some k => k.pyStr ++ ":" ++ joined
       | none => joined]
    ({ t with effects := t.effects ++ effect_args,
              effects_log := t.effects_log ++ ["compand"] }, none)

/-- `Transformer.rate`: validates the sample rate and quality letter and
appends `["rate", "-<quality>", samplerate]` and the log entry. -/
def Transformer.rate (t : Transformer) (samplerate : PyNum) (quality : String) :
    Transformer × Option SoxErr :=
  let quality_vals : List String := ["q", "l", "m", "h", "v"]
  if samplerate.toRat ≤ 0 then (t, some .invalidParameter)
  else if ¬ quality ∈ quality_vals then (t, some .invalidParameter)
  else
    let effect_args := ["rate", "-" ++ quality, samplerate.pyStr]
    ({ t with effects := t.effects ++ effect_args,
              effects_log := t.effects_log ++ ["rate"] }, none)

/-- The `bitdepths` list local to `Transformer.convert` in the source. -/
def bitdepths : List Int := [8, 16, 24, 32, 64]

/-- Final statement group of `Transformer.convert`: if a samplerate was
given, validate it and delegate to the `rate` effect with its default
quality. -/
def Transformer.convertSamplerateStep (t : Transformer) (samplerate : Option PyNum) :
    Transformer × Option SoxErr :=
  match samplerate with
  | none => (t, none)
  | some r =>
    if r.toRat ≤ 0 then (t, some .invalidParameter)
    else t.rate r "h"

/-- Middle statement group of `Transformer.convert`: if a channel count
was given, it must be a positive int (a Python float is rejected by the
`isinstance` check); on success extend `output_format` with the `-c`
tokens and continue with the samplerate group. -/
def Transformer.convertChannelsStep (t : Transformer) (samplerate channels : Option PyNum) :
    Transformer × Option SoxErr :=
  match channels with
  | none => t.convertSamplerateStep samplerate
  | some c =>
    match c with
    | .int n =>
      if n ≤ 0 then (t, some .invalidParameter)
      else Transformer.convertSamplerateStep
        { t with output_format := t.output_format ++ ["-c", c.pyStr] } samplerate
    | .float _ => (t, some .invalidParameter)

/-- `Transformer.convert`: three optional conversions checked and applied
in source order — bitdepth (extends `output_format` with `-b` tokens
before the later checks run), then channels (must be a positive int),
then samplerate (delegates to `rate` with its default quality).
Membership of the bitdepth in `bitdepths` is by numeric value, as
Python's `in` compares ints and floats by value. -/
def Transformer.convert (t : Transformer) (samplerate channels bitdepth : Option PyNum) :
    Transformer × Option SoxErr :=
  match bitdepth with
  | none => t.convertChannelsStep samplerate channels
  | some b =>
    if bitdepths.any (fun x => (x : Rat) == b.toRat) then
      Transformer.convertChannelsStep
        { t with output_format := t.output_format ++ ["-b", b.pyStr] } samplerate channels
    else (t, some .invalidParameter)

/-- A channels argument that `Transformer.convert` rejects: a float
(fails the `isinstance(channels, int)` check) or a non-positive int. -/
def invalidChannels : PyNum → Prop
  | .int n => n ≤ 0
  | .float _ => True

/-- `Transformer.fade`: validates the shape letter and the two lengths,
then appends the fade-in tokens (if any), the reversed fade-out tokens
(if any), and logs `fade` only when at least one token was produced. -/
def Transformer.fade (t : Transformer) (fade_in_len fade_out_len : PyNum)
    (fade_shape : String) : Transformer × Option SoxErr :=
  let fade_shapes : List String := ["q", "h", "t", "l", "p"]
  if ¬ fade_shape ∈ fade_shapes then (t, some .invalidParameter)
  else if fade_in_len.toRat < 0 then (t, some .invalidParameter)
  else if fade_out_len.toRat < 0 then (t, some .invalidParameter)
  else
    let effect_args : List String := []
    let effect_args :=
      if 0 < fade_in_len.toRat then
        effect_args ++ ["fade", fade_shape, fade_in_len.pyStr]
      else effect_args
    let effect_args :=
      if 0 < fade_out_len.toRat then
        effect_args ++ ["reverse", "fade", fade_shape, fade_out_len.pyStr, "reverse"]
      else effect_args
    if 0 < effect_args.length then
      ({ t with effects := t.effects ++ effect_args,
                effects_log := t.effects_log ++ ["fade"] }, none)
    else (t, none)

/-- `Transformer.gain`: validates `balance` (the boolean checks hold by
typing) and appends `gain`, the optional balance/normalize/limiter
flags, and the gain value. -/
def Transformer.gain (t : Transformer) (gain_db : PyNum) (normalize limiter : Bool)
    (balance : Option String) : Transformer × Option SoxErr :=
  let balanceOk := match balance with
    | none => true
    | some b => (["e", "B", "b"] : List String).contains b
  if balanceOk = false then (t, some .invalidParameter)
  else
    let effect_args := ["gain"]
    let effect_args := match balance with
      | some b => effect_args ++ ["-" ++ b]
      | none => effect_args
    let effect_args := if normalize then effect_args ++ ["-n"] else effect_args
    let effect_args := if limiter then effect_args ++ ["-l"] else effect_args
    let effect_args := effect_args ++ [gain_db.pyStr]
    ({ t with effects := t.effects ++ effect_args,
              effects_log := t.effects_log ++ ["gain"] }, none)

/-- `Transformer.loudness`: validates the reference level range and
appends `["loudness", gain_db, reference_level]`. -/
def Transformer.loudness (t : Transformer) (gain_db reference_level : PyNum) :
    Transformer × Option SoxErr :=
  if 75 < reference_level.toRat ∨ reference_level.toRat < 50 then (t, some .invalidParameter)
  else
    let effect_args := ["loudness", gain_db.pyStr, reference_level.pyStr]
    ({ t with effects := t.effects ++ effect_args,
              effects_log := t.effects_log ++ ["loudness"] }, none)

/-- `Transformer.norm`: appends `["norm", db_level]` (the numeric check
holds by typing). -/
def Transformer.norm (t : Transformer) (db_level : PyNum) : Transformer × Option SoxErr :=
  let effect_args := ["norm", db_level.pyStr]
  ({ t with effects := t.effects ++ effect_args,
            effects_log := t.effects_log ++ ["norm"] }, none)

/-- `Transformer.pad`: validates nonnegative durations and appends
`["pad", start_duration, end_duration]`. -/
def Transformer.pad (t : Transformer) (start_duration end_duration : PyNum) :
    Transformer × Option SoxErr :=
  if start_duration.toRat < 0 then (t, some .invalidParameter)
  else if end_duration.toRat < 0 then (t, some .invalidParameter)
  else
    let effect_args := ["pad", start_duration.pyStr, end_duration.pyStr]
    ({ t with effects := t.effects ++ effect_args,
              effects_log := t.effects_log ++ ["pad"] }, none)

/-- `Transformer.silence`: validates location, threshold (rejecting
negatives, then values at or above 100), duration and the buffer flag,
then builds the token list with the optional `reverse` wrappers and the
optional second silence clause for `location == 0`. -/
def Transformer.silence (t : Transformer) (location : Int)
    (silence_threshold min_silence_duration : PyNum) (buffer_around_silence : Bool) :
    Transformer × Option SoxErr :=
  if ¬ location ∈ ([-1, 0, 1] : List Int) then (t, some .invalidParameter)
  else if silence_threshold.toRat < 0 then (t, some .invalidParameter)
  else if 100 ≤ silence_threshold.toRat then (t, some .invalidParameter)
  else if min_silence_duration.toRat ≤ 0 then (t, some .invalidParameter)
  else
    let effect_args : List String := []
    let effect_args := if location = -1 then effect_args ++ ["reverse"] else effect_args
    let effect_args :=
      if buffer_around_silence then effect_args ++ ["silence", "-l"]
      else effect_args ++ ["silence"]
    let effect_args := effect_args ++
      ["1", min_silence_duration.pyStr, silence_threshold.pyStr ++ "%"]
    let effect_args :=
      if location = 0 then
        effect_args ++ ["-1", min_silence_duration.pyStr, silence_threshold.pyStr ++ "%"]
      else effect_args
    let effect_args := if location = -1 then effect_args ++ ["reverse"] else effect_args
    ({ t with effects := t.effects ++ effect_args,
              effects_log := t.effects_log ++ ["silence"] }, none)

/-- `Transformer.trim`: validates nonnegative start/end and
`start_time < end_time`, then appends
`["trim", start_time, end_time - start_time]`. -/
def Transformer.trim (t : Transformer) (start_time end_time : PyNum) :
    Transformer × Option SoxErr :=
  if start_time.toRat < 0 then (t, some .invalidParameter)
  else if end_time.toRat < 0 then (t, some .invalidParameter)
  else if end_time.toRat ≤ start_time.toRat then (t, some .invalidParameter)
  else
    let effect_args := ["trim", start_time.pyStr, (end_time.sub start_time).pyStr]
    ({ t with effects := t.effects ++ effect_args,
              effects_log := t.effects_log ++ ["trim"] }, none)

/-- One call to an implemented effect operation, with its arguments. -/
inductive EffectCall where
  | compand (attack_time decay_time : PyNum) (soft_knee_db : Option PyNum)
      (tf_points : List (PyNum × PyNum))
  | convert (samplerate channels bitdepth : Option PyNum)
  | fade (fade_in_len fade_out_len : PyNum) (fade_shape : String)
  | gain (gain_db : PyNum) (normalize limiter : Bool) (balance : Option String)
  | loudness (gain_db reference_level : PyNum)
  | norm (db_level : PyNum)
  | pad (start_duration end_duration : PyNum)
  | rate (samplerate : PyNum) (quality : String)
  | silence (location : Int) (silence_threshold min_silence_duration : PyNum)
      (buffer_around_silence : Bool)
  | trim (start_time end_time : PyNum)

/-- Whether the call is a `convert` call. -/
def EffectCall.isConvert : EffectCall → Bool
  | .convert _ _ _ => true
  | _ => false

/-- Dispatch one effect call on a builder state. -/
def applyEffect (t : Transformer) : EffectCall → Transformer × Option SoxErr
  | .compand a d k pts => t.compand a d k pts
  | .convert sr ch bd => t.convert sr ch bd
  | .fade i o sh => t.fade i o sh
  | .gain g n l b => t.gain g n l b
  | .loudness g r => t.loudness g r
  | .norm d => t.norm d
  | .pad s e => t.pad s e
  | .rate r q => t.rate r q
  | .silence loc th d buf => t.silence loc th d buf
  | .trim s e => t.trim s e

/-- Run a sequence of effect calls, keeping the state each call leaves
behind (whether or not it raised). -/
def applyEffects (t : Transformer) (cs : List EffectCall) : Transformer :=
  cs.foldl (fun s c => (applyEffect s c).1) t


/-- A list that is not duplicate-free deduplicates to a strictly shorter
list (so the `compand` duplicate-x check fires exactly on such lists). -/
theorem dedup_length_lt_of_not_nodup {α : Type} [DecidableEq α] {l : List α}
    (h : ¬ l.Nodup) : l.dedup.length < l.length := by
  rcases Nat.lt_or_ge l.dedup.length l.length with hlt | hge
  · exact hlt
  · exfalso
    have hsub := List.dedup_sublist l
    have heq := hsub.eq_of_length (le_antisymm hsub.length_le hge)
    exact h (List.dedup_eq_self.mp heq)

/-- `rate` only ever appends to `effects`. -/
theorem rate_effects_append (t : Transformer) (r : PyNum) (q : String) :
    ∃ s, (t.rate r q).1.effects = t.effects ++ s := by
  simp only [Transformer.rate]
  repeat' split
  all_goals first
    | exact ⟨[], (List.append_nil _).symm⟩
    | exact ⟨_, rfl⟩

/-- `compand` only ever appends to `effects`. -/
theorem compand_effects_append (t : Transformer) (a d : PyNum) (k : Option PyNum)
    (pts : List (PyNum × PyNum)) :
    ∃ s, (t.compand a d k pts).1.effects = t.effects ++ s := by
  simp only [Transformer.compand]
  repeat' split
  all_goals first
    | exact ⟨[], (List.append_nil _).symm⟩
    | exact ⟨_, rfl⟩

/-- `fade` only ever appends to `effects`. -/
theorem fade_effects_append (t : Transformer) (i o : PyNum) (sh : String) :
    ∃ s, (t.fade i o sh).1.effects = t.effects ++ s := by
  simp only [Transformer.fade]
  repeat' split
  all_goals first
    | exact ⟨[], (List.append_nil _).symm⟩
    | exact ⟨_, rfl⟩

/-- `gain` only ever appends to `effects`. -/
theorem gain_effects_append (t : Transformer) (g : PyNum) (n l : Bool)
    (b : Option String) :
    ∃ s, (t.gain g n l b).1.effects = t.effects ++ s := by
  simp only [Transformer.gain]
  repeat' split
  all_goals first
    | exact ⟨[], (List.append_nil _).symm⟩
    | exact ⟨_, rfl⟩

/-- `loudness` only ever appends to `effects`. -/
theorem loudness_effects_append (t : Transformer) (g r : PyNum) :
    ∃ s, (t.loudness g r).1.effects = t.effects ++ s := by
  simp only [Transformer.loudness]
  repeat' split
  all_goals first
    | exact ⟨[], (List.append_nil _).symm⟩
    | exact ⟨_, rfl⟩

/-- `norm` only ever appends to `effects`. -/
theorem norm_effects_append (t : Transformer) (d : PyNum) :
    ∃ s, (t.norm d).1.effects = t.effects ++ s :=
  ⟨_, rfl⟩

/-- `pad` only ever appends to `effects`. -/
theorem pad_effects_append (t : Transformer) (s0 e0 : PyNum) :
    ∃ s, (t.pad s0 e0).1.effects = t.effects ++ s := by
  simp only [Transformer.pad]
  repeat' split
  all_goals first
    | exact ⟨[], (List.append_nil _).symm⟩
    | exact ⟨_, rfl⟩

/-- `silence` only ever appends to `effects`. -/
theorem silence_effects_append (t : Transformer) (loc : Int) (th d : PyNum) (buf : Bool) :
    ∃ s, (t.silence loc th d buf).1.effects = t.effects ++ s := by
  simp only [Transformer.silence]
  repeat' split
  all_goals first
    | exact ⟨[], (List.append_nil _).symm⟩
    | exact ⟨_, rfl⟩

/-- `trim` only ever appends to `effects`. -/
theorem trim_effects_append (t : Transformer) (s0 e0 : PyNum) :
    ∃ s, (t.trim s0 e0).1.effects = t.effects ++ s := by
  simp only [Transformer.trim]
  repeat' split
  all_goals first
    | exact ⟨[], (List.append_nil _).symm⟩
    | exact ⟨_, rfl⟩

/-- The samplerate statement group of `convert` only ever appends to
`effects`. -/
theorem convertSamplerateStep_effects_append (t : Transformer) (sr : Option PyNum) :
    ∃ s, (t.convertSamplerateStep sr).1.effects = t.effects ++ s := by
  rcases sr with _ | r
  · exact ⟨[], (List.append_nil _).symm⟩
  · simp only [Transformer.convertSamplerateStep]
    split
    · exact ⟨[], (List.append_nil _).symm⟩
    · exact rate_effects_append t r "h"

/-- The channels statement group of `convert` only ever appends to
`effects`. -/
theorem convertChannelsStep_effects_append (t : Transformer) (sr ch : Option PyNum) :
    ∃ s, (t.convertChannelsStep sr ch).1.effects = t.effects ++ s := by
  rcases ch with _ | c
  · exact convertSamplerateStep_effects_append t sr
  · rcases c with n | q
    · simp only [Transformer.convertChannelsStep]
      split
      · exact ⟨[], (List.append_nil _).symm⟩
      · exact convertSamplerateStep_effects_append _ sr
    · exact ⟨[], (List.append_nil _).symm⟩

/-- `convert` only ever appends to `effects`. -/
theorem convert_effects_append (t : Transformer) (sr ch bd : Option PyNum) :
    ∃ s, (t.convert sr ch bd).1.effects = t.effects ++ s := by
  rcases bd with _ | b
  · exact convertChannelsStep_effects_append t sr ch
  · simp only [Transformer.convert]
    split
    · exact convertChannelsStep_effects_append _ sr ch
    · exact ⟨[], (List.append_nil _).symm⟩

/-- Any single effect call only ever appends to `effects`. -/
theorem applyEffect_effects_append (t : Transformer) (c : EffectCall) :
    ∃ s, (applyEffect t c).1.effects = t.effects ++ s := by
  cases c
  case compand a d k pts => exact compand_effects_append t a d k pts
  case convert sr ch bd => exact convert_effects_append t sr ch bd
  case fade i o sh => exact fade_effects_append t i o sh
  case gain g n l b => exact gain_effects_append t g n l b
  case loudness g r => exact loudness_effects_append t g r
  case norm d => exact norm_effects_append t d
  case pad s e => exact pad_effects_append t s e
  case rate r q => exact rate_effects_append t r q
  case silence loc th d buf => exact silence_effects_append t loc th d buf
  case trim s e => exact trim_effects_append t s e

/-- A whole sequence of effect calls only ever appends to `effects`. -/
theorem applyEffects_effects_append (t : Transformer) (cs : List EffectCall) :
    ∃ s, (applyEffects t cs).effects = t.effects ++ s := by
  induction cs generalizing t with
  | nil => exact ⟨[], (List.append_nil _).symm⟩
  | cons c cs ih =>
    obtain ⟨s₁, h₁⟩ := applyEffect_effects_append t c
    obtain ⟨s₂, h₂⟩ := ih (applyEffect t c).1
    refine ⟨s₁ ++ s₂, ?_⟩
    show (applyEffects (applyEffect t c).1 cs).effects = t.effects ++ (s₁ ++ s₂)
    rw [h₂, h₁, List.append_assoc]

/-- `compand` raises only `invalidParameter` and mutates nothing when it
raises. -/
theorem compand_atomicity (t : Transformer) (a d : PyNum) (k : Option PyNum)
    (pts : List (PyNum × PyNum)) (err : SoxErr)
    (h : (t.compand a d k pts).2 = some err) :
    err = SoxErr.invalidParameter ∧ (t.compand a d k pts).1 = t := by
  revert h
  simp only [Transformer.compand]
  repeat' split
  all_goals intro h
  all_goals simp_all

/-- `fade` raises only `invalidParameter` and mutates nothing when it
raises. -/
theorem fade_atomicity (t : Transformer) (i o : PyNum) (sh : String) (err : SoxErr)
    (h : (t.fade i o sh).2 = some err) :
    err = SoxErr.invalidParameter ∧ (t.fade i o sh).1 = t := by
  revert h
  simp only [Transformer.fade]
  repeat' split
  all_goals intro h
  all_goals simp_all

/-- `gain` raises only `invalidParameter` and mutates nothing when it
raises. -/
theorem gain_atomicity (t : Transformer) (g : PyNum) (n l : Bool) (b : Option String)
    (err : SoxErr) (h : (t.gain g n l b).2 = some err) :
    err = SoxErr.invalidParameter ∧ (t.gain g n l b).1 = t := by
  revert h
  simp only [Transformer.gain]
  repeat' split
  all_goals intro h
  all_goals simp_all

/-- `loudness` raises only `invalidParameter` and mutates nothing when it
raises. -/
theorem loudness_atomicity (t : Transformer) (g r : PyNum) (err : SoxErr)
    (h : (t.loudness g r).2 = some err) :
    err = SoxErr.invalidParameter ∧ (t.loudness g r).1 = t := by
  revert h
  simp only [Transformer.loudness]
  repeat' split
  all_goals intro h
  all_goals simp_all

/-- `norm` never raises. -/
theorem norm_atomicity (t : Transformer) (d : PyNum) (err : SoxErr)
    (h : (t.norm d).2 = some err) :
    err = SoxErr.invalidParameter ∧ (t.norm d).1 = t := by
  simp only [Transformer.norm] at h
  simp at h

/-- `pad` raises only `invalidParameter` and mutates nothing when it
raises. -/
theorem pad_atomicity (t : Transformer) (s0 e0 : PyNum) (err : SoxErr)
    (h : (t.pad s0 e0).2 = some err) :
    err = SoxErr.invalidParameter ∧ (t.pad s0 e0).1 = t := by
  revert h
  simp only [Transformer.pad]
  repeat' split
  all_goals intro h
  all_goals simp_all

/-- `rate` raises only `invalidParameter` and mutates nothing when it
raises. -/
theorem rate_atomicity (t : Transformer) (r : PyNum) (q : String) (err : SoxErr)
    (h : (t.rate r q).2 = some err) :
    err = SoxErr.invalidParameter ∧ (t.rate r q).1 = t := by
  revert h
  simp only [Transformer.rate]
  repeat' split
  all_goals intro h
  all_goals simp_all

/-- `silence` raises only `invalidParameter` and mutates nothing when it
raises. -/
theorem silence_atomicity (t : Transformer) (loc : Int) (th d : PyNum) (buf : Bool)
    (err : SoxErr) (h : (t.silence loc th d buf).2 = some err) :
    err = SoxErr.invalidParameter ∧ (t.silence loc th d buf).1 = t := by
  revert h
  simp only [Transformer.silence]
  repeat' split
  all_goals intro h
  all_goals simp_all

/-- `trim` raises only `invalidParameter` and mutates nothing when it
raises. -/
theorem trim_atomicity (t : Transformer) (s0 e0 : PyNum) (err : SoxErr)
    (h : (t.trim s0 e0).2 = some err) :
    err = SoxErr.invalidParameter ∧ (t.trim s0 e0).1 = t := by
  revert h
  simp only [Transformer.trim]
  repeat' split
  all_goals intro h
  all_goals simp_all

/-- Every effect operation except `convert` is atomic: a raising call
raises `invalidParameter` and leaves the builder state untouched. -/
theorem applyEffect_atomicity (t : Transformer) (c : EffectCall) (err : SoxErr)
    (hc : c.isConvert = false) (h : (applyEffect t c).2 = some err) :
    err = SoxErr.invalidParameter ∧ (applyEffect t c).1 = t := by
  cases c
  case convert sr ch bd => simp [EffectCall.isConvert] at hc
  case compand a d k pts => exact compand_atomicity t a d k pts err h
  case fade i o sh => exact fade_atomicity t i o sh err h
  case gain g n l b => exact gain_atomicity t g n l b err h
  case loudness g r => exact loudness_atomicity t g r err h
  case norm d => exact norm_atomicity t d err h
  case pad s e => exact pad_atomicity t s e err h
  case rate r q => exact rate_atomicity t r q err h
  case silence loc th d buf => exact silence_atomicity t loc th d buf err h
  case trim s e => exact trim_atomicity t s e err h

/-- `compand` rejects any point list whose x-values (compared by numeric
value, as Python's set does) contain a duplicate, without mutating. -/
theorem compand_dup_x (t : Transformer) (a d : PyNum) (k : Option PyNum)
    (pts : List (PyNum × PyNum)) (h : ¬ (pts.map fun p => p.1.toRat).Nodup) :
    t.compand a d k pts = (t, some SoxErr.invalidParameter) := by
  simp only [Transformer.compand]
  split
  · rfl
  split
  · rfl
  split
  · rfl
  split
  · rfl
  have h2 : (List.map (fun p => p.1.toRat) pts).dedup.length < pts.length := by
    have h3 := dedup_length_lt_of_not_nodup h
    simpa using h3
  rw [if_pos h2]

theorem convert_valid_bitdepth_invalid_channels (t : Transformer) (b c : PyNum)
    (hb : bitdepths.any (fun x => (x : Rat) == b.toRat) = true)
    (hc : invalidChannels c) :
    t.convert none (some c) (some b) =
      ({ t with output_format := t.output_format ++ ["-b", b.pyStr] },
       some SoxErr.invalidParameter) := by
  rcases c with n | q
  · have hc2 : n ≤ 0 := hc
    simp only [Transformer.convert, Transformer.convertChannelsStep]
    rw [if_pos hb, if_pos hc2]
  · simp only [Transformer.convert, Transformer.convertChannelsStep]
    rw [if_pos hb]

theorem convert_valid_bitdepth_invalid_samplerate (t : Transformer) (b r : PyNum)
    (hb : bitdepths.any (fun x => (x : Rat) == b.toRat) = true)
    (hr : r.toRat ≤ 0) :
    t.convert (some r) none (some b) =
      ({ t with output_format := t.output_format ++ ["-b", b.pyStr] },
       some SoxErr.invalidParameter) := by
  simp only [Transformer.convert, Transformer.convertChannelsStep,
    Transformer.convertSamplerateStep]
  rw [if_pos hb, if_pos hr]

/-- Claim C1 (amended).  Every effect operation except `convert` is atomic: a
validation failure raises `InvalidParameter` and leaves the whole builder
state exactly as it was; in particular, for every `tf_points` list with a
duplicate x-value, `compand` fails with `InvalidParameter` and changes
nothing.  `convert`, however, is not atomic: with a valid `bitdepth` and an
invalid `channels` or `samplerate` argument it fails with `InvalidParameter`
only after the `-b` tokens have already been appended to
`output_format` (while `effects`, `effects_log` and `input_format` stay
unchanged). -/
theorem claim_C1 :
    (∀ (t : Transformer) (c : EffectCall) (err : SoxErr), c.isConvert = false →
      (applyEffect t c).2 = some err →
      err = SoxErr.invalidParameter ∧ (applyEffect t c).1 = t) ∧
    (∀ (t : Transformer) (a d : PyNum) (k : Option PyNum) (pts : List (PyNum × PyNum)),
      ¬ (pts.map fun p => p.1.toRat).Nodup →
      t.compand a d k pts = (t, some SoxErr.invalidParameter)) ∧
    (∀ (t : Transformer) (b c : PyNum),
      bitdepths.any (fun x => (x : Rat) == b.toRat) = true → invalidChannels c →
      t.convert none (some c) (some b) =
        ({ t with output_format := t.output_format ++ ["-b", b.pyStr] },
         some SoxErr.invalidParameter)) ∧
    (∀ (t : Transformer) (b r : PyNum),
      bitdepths.any (fun x => (x : Rat) == b.toRat) = true → r.toRat ≤ 0 →
      t.convert (some r) none (some b) =
        ({ t with output_format := t.output_format ++ ["-b", b.pyStr] },
         some SoxErr.invalidParameter)) :=
  ⟨applyEffect_atomicity, compand_dup_x,
   convert_valid_bitdepth_invalid_channels, convert_valid_bitdepth_invalid_samplerate⟩

/-- Claim C1, counterexample to the claim as stated: `convert` on a fresh
builder with valid bitdepth 16 and invalid channels 0 fails with
`InvalidParameter` but has appended `["-b", "16"]` to `output_format`, so
the call does not leave the builder state unchanged. -/
theorem claim_C1_counterexample :
    ((Transformer.create "in.wav" "out.wav").convert none (some (PyNum.int 0))
        (some (PyNum.int 16))).2 = some SoxErr.invalidParameter ∧
    ¬ ((Transformer.create "in.wav" "out.wav").convert none (some (PyNum.int 0))
        (some (PyNum.int 16))).1 = Transformer.create "in.wav" "out.wav" ∧
    ((Transformer.create "in.wav" "out.wav").convert none (some (PyNum.int 0))
        (some (PyNum.int 16))).1.output_format = ["-b", "16"] := by decide

/-- Concrete instances of the amended claim C1: a duplicate-x `compand`
rejection that mutates nothing, the partially-mutating `convert`
rejection, and an atomic `trim` rejection. -/
theorem claim_C1_witness :
    ((Transformer.create "in.wav" "out.wav").compand (PyNum.float (mkRat 3 10))
        (PyNum.float (mkRat 4 5)) (some (PyNum.float 6))
        [(PyNum.int 0, PyNum.int 0), (PyNum.int 0, PyNum.int (-10))] =
      (Transformer.create "in.wav" "out.wav", some SoxErr.invalidParameter)) ∧
    ((Transformer.create "in.wav" "out.wav").convert none (some (PyNum.int 0))
        (some (PyNum.int 16)) =
      ({ Transformer.create "in.wav" "out.wav" with output_format := ["-b", "16"] },
       some SoxErr.invalidParameter)) ∧
    (applyEffect (Transformer.create "in.wav" "out.wav")
        (EffectCall.trim (PyNum.int 5) (PyNum.int 2))).1 =
      Transformer.create "in.wav" "out.wav" := by
  refine ⟨?_, ?_, ?_⟩
  · exact claim_C1.2.1 _ _ _ _ _ (by decide)
  · exact claim_C1.2.2.1 _ _ _ (by decide) (show (0 : Int) ≤ 0 by decide)
  · exact (claim_C1.1 _ _ SoxErr.invalidParameter (by decide) (by decide)).2

/-- Claim C2.  `build` assembles exactly
`globals ++ input_format ++ [input_filepath] ++ output_format ++
[output_filepath] ++ effects`, hands it to the external engine
collaborator, returns success when the engine succeeds, and fails with
`ExecutionFailure` when the engine reports failure; the equalities are in
terms of one engine application, so there is no retry, and `build` does
not return a modified builder. -/
theorem claim_C2 (t : Transformer) (engine : List String → Bool) :
    (engine (t.globals ++ t.input_format ++ [t.input_filepath] ++
        t.output_format ++ [t.output_filepath] ++ t.effects) = true →
      t.build engine = Except.ok true) ∧
    (engine (t.globals ++ t.input_format ++ [t.input_filepath] ++
        t.output_format ++ [t.output_filepath] ++ t.effects) = false →
      t.build engine = Except.error SoxErr.executionFailure) := by
  constructor
  · intro h
    have hne : engine (t.globals ++ t.input_format ++ [t.input_filepath] ++
        t.output_format ++ [t.output_filepath] ++ t.effects) ≠ false := by
      intro hc
      rw [h] at hc
      simp at hc
    simp only [Transformer.build, List.nil_append]
    rw [if_neg hne]
  · intro h
    simp only [Transformer.build, List.nil_append]
    rw [if_pos h]

/-- Concrete instances of claim C2 with an always-succeeding and an
always-failing engine. -/
theorem claim_C2_witness :
    (Transformer.create "in.wav" "out.wav").build (fun _ => true) = Except.ok true ∧
    (Transformer.create "in.wav" "out.wav").build (fun _ => false) =
      Except.error SoxErr.executionFailure :=
  ⟨(claim_C2 _ _).1 rfl, (claim_C2 _ _).2 rfl⟩

/-- Claim C5.  For start and end times with `0 ≤ start < end`, `trim`
appends exactly `["trim", start, end - start]` and logs `trim`;
`trim(1.0, 3.0)` gives tokens `["trim", "1.0", "2.0"]` and log
`["trim"]`; and whenever `start ≥ end` (equality included) `trim` fails
with `InvalidParameter` instead of being a no-op. -/
theorem claim_C5 :
    (∀ (t : Transformer) (s e : PyNum), 0 ≤ s.toRat → 0 ≤ e.toRat → s.toRat < e.toRat →
      t.trim s e =
        ({ t with effects := t.effects ++ ["trim", s.pyStr, (e.sub s).pyStr],
                  effects_log := t.effects_log ++ ["trim"] }, none)) ∧
    ((Transformer.create "in.wav" "out.wav").trim (PyNum.float 1) (PyNum.float 3) =
      (⟨"in.wav", "out.wav", [], [], ["trim", "1.0", "2.0"], ["trim"], ["-D", "-V2"]⟩,
       none)) ∧
    (∀ (t : Transformer) (s e : PyNum), e.toRat ≤ s.toRat →
      t.trim s e = (t, some SoxErr.invalidParameter)) := by
  refine ⟨?_, ?_, ?_⟩
  · intro t s e hs he hlt
    simp only [Transformer.trim]
    rw [if_neg (not_lt.mpr hs), if_neg (not_lt.mpr he), if_neg (not_le.mpr hlt)]
  · decide
  · intro t s e h
    simp only [Transformer.trim]
    repeat' split
    all_goals first
      | rfl
      | exact absurd h (by assumption)

/-- Concrete instances of claim C5: an accepted `trim(0, 2)` and a
rejected `trim(2, 2)`. -/
theorem claim_C5_witness :
    (Transformer.create "a.wav" "b.wav").trim (PyNum.int 0) (PyNum.int 2) =
      (⟨"a.wav", "b.wav", [], [], ["trim", "0", "2"], ["trim"], ["-D", "-V2"]⟩, none) ∧
    (Transformer.create "a.wav" "b.wav").trim (PyNum.int 2) (PyNum.int 2) =
      (Transformer.create "a.wav" "b.wav", some SoxErr.invalidParameter) := by
  constructor
  · exact (claim_C5.1 _ _ _ (by decide) (by decide) (by decide)).trans (by decide)
  · exact claim_C5.2.2 _ _ _ (by decide)

/-- Claim C8.  For every valid fade shape, `fade` with both lengths 0
appends no tokens, writes no log entry, and leaves the entire builder
state unchanged. -/
theorem claim_C8 (t : Transformer) (i o : PyNum) (sh : String)
    (hsh : sh ∈ (["q", "h", "t", "l", "p"] : List String))
    (hi : i.toRat = 0) (ho : o.toRat = 0) :
    t.fade i o sh = (t, none) := by
  simp [Transformer.fade, hsh, hi, ho]

/-- Concrete instance of claim C8 at shape `q`. -/
theorem claim_C8_witness :
    (Transformer.create "in.wav" "out.wav").fade (PyNum.float 0) (PyNum.int 0) "q" =
      (Transformer.create "in.wav" "out.wav", none) :=
  claim_C8 _ _ _ _ (by decide) (by decide) (by decide)

/-- Claim C9.  `effects` grows monotonically: every effect call
(successful or failing, `convert` included) leaves the previous
`effects` as a prefix of the new one, and so does any sequence of
calls. -/
theorem claim_C9 :
    (∀ (t : Transformer) (c : EffectCall),
      ∃ s, (applyEffect t c).1.effects = t.effects ++ s) ∧
    (∀ (t : Transformer) (cs : List EffectCall),
      ∃ s, (applyEffects t cs).effects = t.effects ++ s) :=
  ⟨applyEffect_effects_append, applyEffects_effects_append⟩

/-- Claim C10.  `convert` with only a positive samplerate delegates to
the `rate` effect with its default quality: it appends exactly
`["rate", "-h", <rate>]` to `effects` and logs `rate`, not `convert`. -/
theorem claim_C10 (t : Transformer) (r : PyNum) (h : 0 < r.toRat) :
    t.convert (some r) none none =
      ({ t with effects := t.effects ++ ["rate", "-h", r.pyStr],
                effects_log := t.effects_log ++ ["rate"] }, none) := by
  simp only [Transformer.convert, Transformer.convertChannelsStep,
    Transformer.convertSamplerateStep, Transformer.rate]
  rw [if_neg (not_le.mpr h), if_neg (not_le.mpr h),
    if_neg (not_not_intro (by decide : "h" ∈ (["q", "l", "m", "h", "v"] : List String)))]
  rfl

/-- Concrete instance of claim C10 at samplerate 8000. -/
theorem claim_C10_witness :
    (Transformer.create "in.wav" "out.wav").convert (some (PyNum.int 8000)) none none =
      (⟨"in.wav", "out.wav", [], [], ["rate", "-h", "8000"], ["rate"], ["-D", "-V2"]⟩,
       none) :=
  (claim_C10 _ _ (by decide)).trans (by decide)

/-- Claim C3.  For boolean flags and verbosity in {0..4}, `set_globals`
replaces `globals` by exactly `-D` (iff dither is false), then `-G` (iff
guard), then `--multi-threaded` (iff multithread), then
`--replay-gain track` (iff replay_gain), always ending with
`-V<verbosity>`; with all defaults the result is exactly
`["-D", "-V2"]`. -/
theorem claim_C3 :
    (∀ (t : Transformer) (dither guard multithread replay_gain : Bool) (verbosity : Int),
      verbosity ∈ VERBOSITY_VALS →
      t.set_globals dither guard multithread replay_gain verbosity =
        ({ t with globals :=
            (if dither = false then ["-D"] else []) ++
            (if guard then ["-G"] else []) ++
            (if multithread then ["--multi-threaded"] else []) ++
            (if replay_gain then ["--replay-gain", "track"] else []) ++
            ["-V" ++ toString verbosity] }, none)) ∧
    (∀ t : Transformer, t.set_globals false false false false 2 =
      ({ t with globals := ["-D", "-V2"] }, none)) := by
  constructor
  · intro t dither guard multithread replay_gain verbosity hv
    simp only [Transformer.set_globals]
    rw [if_neg (not_not_intro hv)]
    rcases dither <;> rcases guard <;> rcases multithread <;> rcases replay_gain <;> simp
  · intro t
    rfl

/-- Concrete instance of claim C3 with all flags on and verbosity 3. -/
theorem claim_C3_witness :
    (Transformer.create "in.wav" "out.wav").set_globals true true true true 3 =
      ({ Transformer.create "in.wav" "out.wav" with
          globals := ["-G", "--multi-threaded", "--replay-gain", "track", "-V3"] },
       none) :=
  (claim_C3.1 _ _ _ _ _ _ (by decide)).trans (by decide)

/-- Claim C4.  For every valid `compand` call the appended tokens are
`["compand", "<attack>,<decay>", "<softKnee>:<points>"]` where the points
are sorted ascending by x (the sort is sorted and a permutation of the
input) and flattened comma-joined, the `<softKnee>:` prefix omitted when
`soft_knee_db` is absent; the all-defaults call yields exactly
`["compand", "0.3,0.8", "6.0:-70,-70,-60,-20,0,0"]`. -/
theorem claim_C4 :
    (∀ (t : Transformer) (a d : PyNum) (sk : Option PyNum) (pts : List (PyNum × PyNum)),
      0 < a.toRat → 0 < d.toRat → pts ≠ [] →
      (∀ p ∈ pts, p.1.toRat ≤ 0 ∧ p.2.toRat ≤ 0) →
      (pts.map fun p => p.1.toRat).Nodup →
      t.compand a d sk pts =
        ({ t with
            effects := t.effects ++
              ["compand", a.pyStr ++ "," ++ d.pyStr,
               (match sk with
                | some k => k.pyStr ++ ":" ++ String.intercalate ","
                    (((List.insertionSort tfLe pts).map fun p => [p.1.pyStr, p.2.pyStr]).flatten)
                | none => String.intercalate ","
                    (((List.insertionSort tfLe pts).map fun p => [p.1.pyStr, p.2.pyStr]).flatten))],
            effects_log := t.effects_log ++ ["compand"] }, none)) ∧
    (∀ pts : List (PyNum × PyNum),
      List.Sorted tfLe (List.insertionSort tfLe pts) ∧
      List.Perm (List.insertionSort tfLe pts) pts) ∧
    ((Transformer.create "in.wav" "out.wav").compand (PyNum.float (mkRat 3 10))
        (PyNum.float (mkRat 4 5)) (some (PyNum.float 6))
        [(PyNum.int (-70), PyNum.int (-70)), (PyNum.int (-60), PyNum.int (-20)),
         (PyNum.int 0, PyNum.int 0)] =
      (⟨"in.wav", "out.wav", [], [], ["compand", "0.3,0.8", "6.0:-70,-70,-60,-20,0,0"],
        ["compand"], ["-D", "-V2"]⟩, none)) := by
  refine ⟨?_, ?_, ?_⟩
  · intro t a d sk pts ha hd hne hbound hnd
    have hany : pts.any (fun p => decide (0 < p.1.toRat) || decide (0 < p.2.toRat)) = false := by
      rw [List.any_eq_false]
      intro p hp
      have hb := hbound p hp
      simp [decide_eq_false (not_lt.mpr hb.1), decide_eq_false (not_lt.mpr hb.2)]
    have hdd : (pts.map fun p => p.1.toRat).dedup.length = pts.length := by
      rw [List.dedup_eq_self.mpr hnd, List.length_map]
    simp only [Transformer.compand]
    rw [if_neg (not_le.mpr ha), if_neg (not_le.mpr hd),
      if_neg (fun h0 => hne (List.length_eq_zero.mp h0)),
      if_neg (by rw [hany]; exact Bool.false_ne_true),
      if_neg (by rw [hdd]; exact lt_irrefl _)]
    rfl
  · intro pts
    exact ⟨List.sorted_insertionSort tfLe pts, List.perm_insertionSort tfLe pts⟩
  · decide

/-- Concrete instance of claim C4 whose points are given out of order and
come out sorted by x. -/
theorem claim_C4_witness :
    (Transformer.create "w.wav" "x.wav").compand (PyNum.float (mkRat 3 10))
        (PyNum.float (mkRat 4 5)) (some (PyNum.float 6))
        [(PyNum.int (-60), PyNum.int (-20)), (PyNum.int (-70), PyNum.int (-70))] =
      (⟨"w.wav", "x.wav", [], [], ["compand", "0.3,0.8", "6.0:-70,-70,-60,-20"],
        ["compand"], ["-D", "-V2"]⟩, none) :=
  (claim_C4.1 _ _ _ _ _ (by decide) (by decide) (by decide) (by decide)
    (by decide)).trans (by decide)

/-- Claim C6.  For every valid `silence` call the tokens are: a leading
`reverse` iff location is -1; `["silence", "-l"]` or `["silence"]` by
the buffer flag; `["1", dur, "<th>%"]`; a second `["-1", dur, "<th>%"]`
iff location is 0; a trailing `reverse` iff location is -1;
`silence(0, 0.1, 0.1)` appends exactly
`["silence", "1", "0.1", "0.1%", "-1", "0.1", "0.1%"]`. -/
theorem claim_C6 :
    (∀ (t : Transformer) (loc : Int) (th dur : PyNum) (buf : Bool),
      loc ∈ ([-1, 0, 1] : List Int) → 0 ≤ th.toRat → th.toRat < 100 → 0 < dur.toRat →
      t.silence loc th dur buf =
        ({ t with
            effects := t.effects ++
              ((if loc = -1 then ["reverse"] else []) ++
               (if buf then ["silence", "-l"] else ["silence"]) ++
               ["1", dur.pyStr, th.pyStr ++ "%"] ++
               (if loc = 0 then ["-1", dur.pyStr, th.pyStr ++ "%"] else []) ++
               (if loc = -1 then ["reverse"] else [])),
            effects_log := t.effects_log ++ ["silence"] }, none)) ∧
    ((Transformer.create "in.wav" "out.wav").silence 0 (PyNum.float (mkRat 1 10))
        (PyNum.float (mkRat 1 10)) false =
      (⟨"in.wav", "out.wav", [], [], ["silence", "1", "0.1", "0.1%", "-1", "0.1", "0.1%"],
        ["silence"], ["-D", "-V2"]⟩, none)) := by
  constructor
  · intro t loc th dur buf hloc hth0 hth1 hdur
    simp only [Transformer.silence]
    rw [if_neg (not_not_intro hloc), if_neg (not_lt.mpr hth0), if_neg (not_le.mpr hth1),
      if_neg (not_le.mpr hdur)]
    have hloc3 : loc = -1 ∨ loc = 0 ∨ loc = 1 := by simpa using hloc
    rcases hloc3 with h | h | h <;> subst h <;> rcases buf <;> simp
  · decide

/-- Concrete instance of claim C6 with location 1 and the buffer flag
set. -/
theorem claim_C6_witness :
    (Transformer.create "in.wav" "out.wav").silence 1 (PyNum.int 50) (PyNum.int 2) true =
      (⟨"in.wav", "out.wav", [], [], ["silence", "-l", "1", "2", "50%"],
        ["silence"], ["-D", "-V2"]⟩, none) :=
  (claim_C6.1 _ _ _ _ _ (by decide) (by decide) (by decide) (by decide)).trans (by decide)

/-- Claim C7.  `silence` accepts a threshold `t` exactly when
`0 ≤ t < 100`, and rejects every other value with `InvalidParameter`
(with the other arguments at their valid defaults). -/
theorem claim_C7 :
    (∀ (t : Transformer) (th : PyNum),
      (t.silence 0 th (PyNum.float (mkRat 1 10)) false).2 = none ↔
        0 ≤ th.toRat ∧ th.toRat < 100) ∧
    (∀ (t : Transformer) (th : PyNum), ¬ (0 ≤ th.toRat ∧ th.toRat < 100) →
      (t.silence 0 th (PyNum.float (mkRat 1 10)) false).2 = some SoxErr.invalidParameter) := by
  constructor
  · intro t th
    simp only [Transformer.silence]
    rw [if_neg (not_not_intro (by decide : (0 : Int) ∈ ([-1, 0, 1] : List Int)))]
    by_cases h1 : th.toRat < 0
    · rw [if_pos h1]
      simp [not_le.mpr h1]
    · rw [if_neg h1]
      by_cases h2 : 100 ≤ th.toRat
      · rw [if_pos h2]
        simp [not_lt.mpr h2]
      · rw [if_neg h2,
          if_neg (by decide : ¬ (PyNum.float (mkRat 1 10)).toRat ≤ 0)]
        simp [not_lt.mp h1, not_le.mp h2]
  · intro t th h
    rcases not_and_or.mp h with h1 | h2
    · have h1lt := not_le.mp h1
      simp only [Transformer.silence]
      rw [if_neg (not_not_intro (by decide : (0 : Int) ∈ ([-1, 0, 1] : List Int))),
        if_pos h1lt]
    · have h2ge := not_lt.mp h2
      simp only [Transformer.silence]
      rw [if_neg (not_not_intro (by decide : (0 : Int) ∈ ([-1, 0, 1] : List Int))),
        if_neg (not_lt.mpr (le_trans (by norm_num) h2ge)), if_pos h2ge]

/-- Boundary instances of claim C7: threshold 100 rejected, 99.999 and 0
accepted. -/
theorem claim_C7_witness :
    ((Transformer.create "in.wav" "out.wav").silence 0 (PyNum.int 100)
        (PyNum.float (mkRat 1 10)) false).2 = some SoxErr.invalidParameter ∧
    (((Transformer.create "in.wav" "out.wav").silence 0 (PyNum.float (mkRat 99999 1000))
        (PyNum.float (mkRat 1 10)) false).2 = none) ∧
    (((Transformer.create "in.wav" "out.wav").silence 0 (PyNum.int 0)
        (PyNum.float (mkRat 1 10)) false).2 = none) := by
  refine ⟨claim_C7.2 _ _ (by decide), ?_, ?_⟩
  · exact (claim_C7.1 _ _).mpr (by decide)
  · exact (claim_C7.1 _ _).mpr (by decide)
